import Mathlib

/-
Shallow embedding of `bot/mjapi/mjapi.py` (class `MjapiClient`), a serialized
JSON-over-HTTP client, together with theorems settling the specification
claims about it.

Modelling conventions:
* JSON values (the results of `requests.Response.json()`) are the inductive
  type `Json`; the constructor `Json.null` doubles as Python's `None`, since
  `json.loads("null")` and the returned-`None` paths produce the very same
  Python object.
* An HTTP response is a status code, an optional parsed JSON body
  (`none` models an empty body, i.e. falsy `res.content`) and the raw text.
  Bodies are modelled as empty-or-valid-JSON, which covers every response
  shape the claims quantify over.
* Python exceptions are the inductive `PyError`; methods return
  `Except PyError α`.  `requests.exceptions.JSONDecodeError` counts as a
  `RequestException` (requests ≥ 2.27), which the `except` clauses of
  `post_req`/`get_req` catch.
* Dynamic-typing behaviour is embedded faithfully: `x in v` is `pyIn`
  (raising `TypeError` on non-iterables such as `None`), `v[k]` is
  `pyGetItem` (raising `KeyError`/`TypeError`), f-string interpolation is
  `pyStr` (Python `str()`), and the `raise_error` parameter is an
  `Option Bool` whose truthiness is `truthy` (so the literal `None`
  passed by `get_usage`/`get_limit` is falsy).
* The network is a parameter: each operation takes the `TransportResult`
  the underlying `session.post`/`session.get` call would yield, and
  returns a `CallOutcome`: the Python result (or exception), the client
  state after the call, and the list of wire requests issued during it.
  The threading lock is held only inside the primitives around the single
  `session` call and guards no state the embedding tracks.
-/

set_option autoImplicit false

namespace Mjapi

/-- A parsed JSON value; `null` also stands for Python `None`. -/
inductive Json where
  | null : Json
  | bool (b : Bool) : Json
  | num (n : Int) : Json
  | str (s : String) : Json
  | arr (elems : List Json) : Json
  | obj (fields : List (String × Json)) : Json
deriving Repr

/-- Python exceptions raised by the client, tagged with their messages. -/
inductive PyError where
  | runtimeError (msg : String) : PyError
  | valueError (msg : String) : PyError
  | typeError (msg : String) : PyError
  | keyError (key : String) : PyError
  | jsonDecodeError : PyError
  | requestException : PyError
deriving Repr, DecidableEq

/-- Truthiness of the `raise_error` argument (`None` is falsy in Python). -/
def truthy : Option Bool → Bool
  | none => false
  | some b => b

/-- Whether the exception is a `requests.RequestException`;
`requests.exceptions.JSONDecodeError` subclasses it since requests 2.27. -/
def PyError.isRequestException : PyError → Bool
  | .requestException => true
  | .jsonDecodeError => true
  | _ => false

mutual

/-- Python `repr()` of a JSON value. -/
def pyRepr : Json → String
  | .null => "None"
  | .bool true => "True"
  | .bool false => "False"
  | .num n => toString n
  | .str s => "\x27" ++ s ++ "\x27"
  | .arr xs => "[" ++ pyReprList xs ++ "]"
  | .obj fs => "\x7b" ++ pyReprFields fs ++ "\x7d"

/-- Comma-separated `repr`s of list elements. -/
def pyReprList : List Json → String
  | [] => ""
  | [x] => pyRepr x
  | x :: xs => pyRepr x ++ ", " ++ pyReprList xs

/-- Comma-separated `repr`s of dict entries. -/
def pyReprFields : List (String × Json) → String
  | [] => ""
  | [(k, v)] => "\x27" ++ k ++ "\x27: " ++ pyRepr v
  | (k, v) :: fs => "\x27" ++ k ++ "\x27: " ++ pyRepr v ++ ", " ++ pyReprFields fs

end

/-- Python `str()` of a JSON value, as used by f-string interpolation:
strings format as themselves, every other value as its `repr`. -/
def pyStr : Json → String
  | .str s => s
  | v => pyRepr v

/-- Whether a (non-empty) pattern occurs as a substring, Python `pat in s`. -/
def pyStrContains (s pat : String) : Bool :=
  (s.splitOn pat).length ≥ 2

/-- Python membership test `key in v`: dict-key membership on objects,
element membership on lists, substring on strings, `TypeError` otherwise
(in particular on `None`). -/
def pyIn (key : String) (v : Json) : Except PyError Bool :=
  match v with
  | .obj fields => .ok (fields.lookup key).isSome
  | .arr xs => .ok (xs.any fun x => pyStr x == key)
  | .str s => .ok (pyStrContains s key)
  | .null => .error (.typeError "argument of type \x27NoneType\x27 is not iterable")
  | .bool _ => .error (.typeError "argument of type \x27bool\x27 is not iterable")
  | .num _ => .error (.typeError "argument of type \x27int\x27 is not iterable")

/-- Python subscript `v[key]` with a string key: dict lookup raising
`KeyError` when absent, `TypeError` on every non-dict value. -/
def pyGetItem (v : Json) (key : String) : Except PyError Json :=
  match v with
  | .obj fields =>
      match fields.lookup key with
      | some x => .ok x
      | none => .error (.keyError key)
  | .str _ => .error (.typeError "string indices must be integers")
  | .arr _ => .error (.typeError "list indices must be integers or slices, not str")
  | _ => .error (.typeError "object is not subscriptable")

/-- An HTTP response as seen by the client: status code, parsed JSON body
(`none` = empty body) and raw text. -/
structure HttpResponse where
  statusCode : Nat
  body : Option Json
  text : String
deriving Repr

/-- `requests.Response.ok`: true when the status code is below 400. -/
abbrev HttpResponse.ok (r : HttpResponse) : Prop := r.statusCode < 400

/-- `Response.json()`: the parsed body, or `JSONDecodeError` on an empty body. -/
def HttpResponse.json (r : HttpResponse) : Except PyError Json :=
  match r.body with
  | some j => .ok j
  | none => .error .jsonDecodeError

/-- HTTP method of a wire request. -/
inductive Method where
  | GET : Method
  | POST : Method
deriving Repr, DecidableEq

/-- One request issued on the shared connection: method, full URL, JSON
body (`Json.null` models the `json=None` default / body-less GET) and the
headers dict attached to it. -/
structure Request where
  method : Method
  url : String
  jsonBody : Json
  headers : List (String × String)
deriving Repr

/-- Result of one `session.post`/`session.get` call: either a response or a
`requests.RequestException` (connection failure, timeout, ...). -/
inductive TransportResult where
  | success (r : HttpResponse) : TransportResult
  | exn : TransportResult
deriving Repr

/-- The mutable state of an `MjapiClient`: base URL, bearer token
(`Json.null` until set) and the headers dict. -/
structure MjapiClient where
  base_url : String
  token : Json
  headers : List (String × String)
deriving Repr

/-- Outcome of calling one client method: the Python return value or the
exception raised, the client state after the call, and the wire requests
issued during the call. -/
structure CallOutcome (α : Type) where
  result : Except PyError α
  client : MjapiClient
  sent : List Request
deriving Repr

/-- Python dict assignment `d[k] = v`: replace the entry in place when the
key is present, append it otherwise. -/
def dictSet : List (String × String) → String → String → List (String × String)
  | [], k, v => [(k, v)]
  | p :: rest, k, v => if p.1 = k then (k, v) :: rest else p :: dictSet rest k v

/-- `MjapiClient.__init__`: empty token, empty headers, idle connection. -/
def MjapiClient.init (base_url : String) : MjapiClient :=
  { base_url := base_url, token := Json.null, headers := [] }

/-- `set_bearer_token`: store the token and install the
`Authorization: Bearer <token>` header. -/
def set_bearer_token (c : MjapiClient) (token : Json) : MjapiClient :=
  { c with
      token := token,
      headers := dictSet c.headers "Authorization" ("Bearer " ++ pyStr token) }

/-- `_process_res`: on `res.ok` return the parsed body (or `None` when
empty); otherwise, when the body holds an `error` key, raise
`RuntimeError("Error in response {status}: {message}")` if `raise_error`
is truthy and return the whole body if not; any other failure body raises
`RuntimeError("Unexpected API response {status}: {text}")`. -/
def process_res (res : HttpResponse) (raise_error : Option Bool) :
    Except PyError Json :=
  if res.statusCode < 400 then
    .ok (match res.body with | some j => j | none => .null)
  else
    match res.json with
    | .error e => .error e
    | .ok j =>
      match pyIn "error" j with
      | .error e => .error e
      | .ok true =>
        match pyGetItem j "error" with
        | .error e => .error e
        | .ok message =>
          if truthy raise_error then
            .error (.runtimeError ("Error in response " ++ toString res.statusCode
              ++ ": " ++ pyStr message))
          else
            .ok j
      | .ok false =>
        .error (.runtimeError ("Unexpected API response " ++ toString res.statusCode
          ++ ": " ++ res.text))

/-- `post_req`: issue one locked POST, feed the response through
`process_res`, and catch `RequestException`s per `raise_error`. -/
def post_req (c : MjapiClient) (path : String) (json : Json)
    (raise_error : Option Bool) (net : TransportResult) : CallOutcome Json :=
  let req : Request :=
    { method := .POST, url := c.base_url ++ path, jsonBody := json, headers := c.headers }
  let result : Except PyError Json :=
    match net with
    | .exn => if truthy raise_error then .error .requestException else .ok .null
    | .success res =>
      match process_res res raise_error with
      | .ok v => .ok v
      | .error e =>
        if e.isRequestException then
          if truthy raise_error then .error e else .ok .null
        else
          .error e
  { result := result, client := c, sent := [req] }

/-- `get_req`: issue one locked GET, feed the response through
`process_res`, and catch `RequestException`s per `raise_error`. -/
def get_req (c : MjapiClient) (path : String)
    (raise_error : Option Bool) (net : TransportResult) : CallOutcome Json :=
  let req : Request :=
    { method := .GET, url := c.base_url ++ path, jsonBody := .null, headers := c.headers }
  let result : Except PyError Json :=
    match net with
    | .exn => if truthy raise_error then .error .requestException else .ok .null
    | .success res =>
      match process_res res raise_error with
      | .ok v => .ok v
      | .error e =>
        if e.isRequestException then
          if truthy raise_error then .error e else .ok .null
        else
          .error e
  { result := result, client := c, sent := [req] }

/-- `_post_act` (leading underscore dropped): issue one locked POST and
interpret the response with the action-path rules: with a non-empty body,
status 200 returns the `act` field when present and `None` otherwise, a
non-200 status returns the whole body when it has an `error` key and
raises `ValueError("status code {status}; {text}")` otherwise; with an
empty body, a non-200 status raises `ValueError("status code {status}")`
and status 200 returns `None`. -/
def post_act (c : MjapiClient) (path : String) (_seq : Json) (actions : Json)
    (net : TransportResult) : CallOutcome Json :=
  let req : Request :=
    { method := .POST, url := c.base_url ++ path, jsonBody := actions, headers := c.headers }
  let result : Except PyError Json :=
    match net with
    | .exn => .error .requestException
    | .success response =>
      match response.body with
      | some response_json =>
        if response.statusCode = 200 then
          match pyIn "act" response_json with
          | .error e => .error e
          | .ok true => pyGetItem response_json "act"
          | .ok false => .ok .null
        else
          match pyIn "error" response_json with
          | .error e => .error e
          | .ok true => .ok response_json
          | .ok false =>
            .error (.valueError ("status code " ++ toString response.statusCode
              ++ "; " ++ response.text))
      | none =>
        if response.statusCode ≠ 200 then
          .error (.valueError ("status code " ++ toString response.statusCode))
        else
          .ok .null
  { result := result, client := c, sent := [req] }

/-- `register(name)`: POST `{name}` to `/user/register`, return the body. -/
def register (c : MjapiClient) (name : String) (net : TransportResult) :
    CallOutcome Json :=
  post_req c "/user/register" (Json.obj [("name", Json.str name)]) (some true) net

/-- `login(name, secret)`: POST the credentials; when the response holds an
`id` field, store it as token and bearer header; otherwise raise
`RuntimeError("Error login: {res_json}")`. -/
def login (c : MjapiClient) (name secret : String) (net : TransportResult) :
    CallOutcome Json :=
  let data := Json.obj [("name", Json.str name), ("secret", Json.str secret)]
  let r := post_req c "/user/login" data (some true) net
  match r.result with
  | .error e => { result := .error e, client := r.client, sent := r.sent }
  | .ok res_json =>
    match pyIn "id" res_json with
    | .error e => { result := .error e, client := r.client, sent := r.sent }
    | .ok true =>
      match pyGetItem res_json "id" with
      | .error e => { result := .error e, client := r.client, sent := r.sent }
      | .ok tok =>
        let c1 := { r.client with token := tok }
        { result := .ok .null, client := set_bearer_token c1 c1.token, sent := r.sent }
    | .ok false =>
      { result := .error (.runtimeError ("Error login: " ++ pyStr res_json)),
        client := r.client, sent := r.sent }

/-- `trial()`: POST the fixed trial code; same token contract as `login`. -/
def trial (c : MjapiClient) (net : TransportResult) : CallOutcome Json :=
  let data := Json.obj [("code", Json.str "FREE_TRIAL_SPONSORED_BY_MJAPI_DiscordID_9ns4esyx")]
  let r := post_req c "/user/trial" data (some true) net
  match r.result with
  | .error e => { result := .error e, client := r.client, sent := r.sent }
  | .ok res_json =>
    match pyIn "id" res_json with
    | .error e => { result := .error e, client := r.client, sent := r.sent }
    | .ok true =>
      match pyGetItem res_json "id" with
      | .error e => { result := .error e, client := r.client, sent := r.sent }
      | .ok tok =>
        let c1 := { r.client with token := tok }
        { result := .ok .null, client := set_bearer_token c1 c1.token, sent := r.sent }
    | .ok false =>
      { result := .error (.runtimeError ("Error login: " ++ pyStr res_json)),
        client := r.client, sent := r.sent }

/-- `set_temp_user(token)`: install a caller-supplied token, no network. -/
def set_temp_user (c : MjapiClient) (token : Json) : MjapiClient :=
  let c1 := { c with token := token }
  set_bearer_token c1 c1.token

/-- `get_user_info()`: GET `/user`, return the body. -/
def get_user_info (c : MjapiClient) (net : TransportResult) : CallOutcome Json :=
  get_req c "/user" (some true) net

/-- `logout()`: POST to `/user/logout`, return the body (token kept). -/
def logout (c : MjapiClient) (net : TransportResult) : CallOutcome Json :=
  post_req c "/user/logout" .null (some true) net

/-- `list_models()`: GET `/mjai/list` and unwrap the `models` field. -/
def list_models (c : MjapiClient) (net : TransportResult) : CallOutcome Json :=
  let r := get_req c "/mjai/list" (some true) net
  let result : Except PyError Json :=
    match r.result with
    | .error e => .error e
    | .ok res_json => pyGetItem res_json "models"
  { result := result, client := r.client, sent := r.sent }

/-- `get_usage()`: GET `/mjai/usage` with `raise_error=None` (falsy) and
unwrap the `used` field. -/
def get_usage (c : MjapiClient) (net : TransportResult) : CallOutcome Json :=
  let r := get_req c "/mjai/usage" none net
  let result : Except PyError Json :=
    match r.result with
    | .error e => .error e
    | .ok res_json => pyGetItem res_json "used"
  { result := result, client := r.client, sent := r.sent }

/-- `get_limit()`: GET `/mjai/limit` with `raise_error=None` (falsy),
return the body. -/
def get_limit (c : MjapiClient) (net : TransportResult) : CallOutcome Json :=
  get_req c "/mjai/limit" none net

/-- `start_bot(id, bound, model)`: POST the parameters to `/mjai/start`. -/
def start_bot (c : MjapiClient) (id bound model : Json) (net : TransportResult) :
    CallOutcome Json :=
  post_req c "/mjai/start"
    (Json.obj [("id", id), ("bound", bound), ("model", model)]) (some true) net

/-- `act(seq, data)`: wrap the action as `{seq, data}` and send it through
the action path. -/
def act (c : MjapiClient) (seq data : Json) (net : TransportResult) :
    CallOutcome Json :=
  post_act c "/mjai/act" seq (Json.obj [("seq", seq), ("data", data)]) net

/-- `batch(actions)`: `None` straight away on an empty list; otherwise read
`seq` from the last envelope and send the whole list through the action
path. -/
def batch (c : MjapiClient) (actions : List Json) (net : TransportResult) :
    CallOutcome Json :=
  if actions.length = 0 then
    { result := .ok .null, client := c, sent := [] }
  else
    match pyGetItem (actions.getLastD .null) "seq" with
    | .error e => { result := .error e, client := c, sent := [] }
    | .ok seq => post_act c "/mjai/batch" seq (Json.arr actions) net

/-- `stop_bot()`: `self.post_req(path, None)` — the literal `None` binds to
the `json` parameter, so `raise_error` keeps its default `True`. -/
def stop_bot (c : MjapiClient) (net : TransportResult) : CallOutcome Json :=
  post_req c "/mjai/stop" .null (some true) net

/-- Helper: the defaulted last element of a list ending in `a` is `a`. -/
theorem getLastD_append_single {α : Type} (as : List α) (a d : α) :
    (as ++ [a]).getLastD d = a := by
  induction as generalizing d with
  | nil => rfl
  | cons x xs ih => rw [List.cons_append, List.getLastD_cons]; exact ih x

/-- Helper: a list ending in an element has positive length. -/
theorem length_append_single_ne_zero {α : Type} (as : List α) (a : α) :
    (as ++ [a]).length ≠ 0 := by
  simp

/-- Helper: a non-empty `batch` call whose last envelope carries `seq = s`
routes to `post_act` on `/mjai/batch` with the whole list as body. -/
theorem batch_eq_post_act (c : MjapiClient) (as : List Json)
    (gf : List (String × Json)) (s : Json) (net : TransportResult)
    (hseq : gf.lookup "seq" = some s) :
    batch c (as ++ [Json.obj gf]) net
      = post_act c "/mjai/batch" s (Json.arr (as ++ [Json.obj gf])) net := by
  unfold batch
  rw [if_neg (length_append_single_ne_zero as (Json.obj gf))]
  rw [getLastD_append_single]
  simp [pyGetItem, hseq]

/-- A fixed client value used by the witness and counterexample theorems. -/
def sampleClient : MjapiClient := MjapiClient.init "http://test"

/-- C1: for every status-200 response received by `act` or `batch`: an
empty body yields `None`; a JSON body with an `act` key yields that key's
value; a JSON body without an `act` key yields `None`. -/
theorem claim_C1_act_batch_status200 (c : MjapiClient) (seq data : Json)
    (tx : String) :
    ((act c seq data (.success ⟨200, none, tx⟩)).result = .ok .null)
    ∧ (∀ (fields : List (String × Json)) (v : Json), fields.lookup "act" = some v →
        (act c seq data (.success ⟨200, some (.obj fields), tx⟩)).result = .ok v)
    ∧ (∀ (fields : List (String × Json)), fields.lookup "act" = none →
        (act c seq data (.success ⟨200, some (.obj fields), tx⟩)).result = .ok .null)
    ∧ (∀ (as : List Json) (gf : List (String × Json)) (s : Json),
        gf.lookup "seq" = some s →
        ((batch c (as ++ [Json.obj gf]) (.success ⟨200, none, tx⟩)).result = .ok .null)
        ∧ (∀ (fields : List (String × Json)) (v : Json), fields.lookup "act" = some v →
            (batch c (as ++ [Json.obj gf])
              (.success ⟨200, some (.obj fields), tx⟩)).result = .ok v)
        ∧ (∀ (fields : List (String × Json)), fields.lookup "act" = none →
            (batch c (as ++ [Json.obj gf])
              (.success ⟨200, some (.obj fields), tx⟩)).result = .ok .null)) := by
  refine ⟨?_, ?_, ?_, ?_⟩
  · simp [act, post_act]
  · intro fields v h
    simp [act, post_act, pyIn, pyGetItem, h]
  · intro fields h
    simp [act, post_act, pyIn, h]
  · intro as gf s hseq
    refine ⟨?_, ?_, ?_⟩
    · rw [batch_eq_post_act c as gf s _ hseq]; simp [post_act]
    · intro fields v h
      rw [batch_eq_post_act c as gf s _ hseq]
      simp [post_act, pyIn, pyGetItem, h]
    · intro fields h
      rw [batch_eq_post_act c as gf s _ hseq]
      simp [post_act, pyIn, h]

/-- Witness for C1 at concrete inputs: a 200 response `{"act": "dahai"}`
makes `batch` on a one-envelope list return `"dahai"`. -/
theorem claim_C1_witness :
    (([("seq", Json.num 1)] : List (String × Json)).lookup "seq" = some (Json.num 1))
    ∧ (([("act", Json.str "dahai")] : List (String × Json)).lookup "act"
        = some (Json.str "dahai"))
    ∧ (batch sampleClient [Json.obj [("seq", Json.num 1)]]
        (.success ⟨200, some (.obj [("act", .str "dahai")]), "t"⟩)).result
        = .ok (.str "dahai") :=
  ⟨rfl, rfl,
    ((claim_C1_act_batch_status200 sampleClient .null .null "t").2.2.2
      [] [("seq", Json.num 1)] (Json.num 1) rfl).2.1
      [("act", Json.str "dahai")] (Json.str "dahai") rfl⟩

/-- C2: for every non-200 response received by `act` or `batch`: an empty
body raises `ValueError` with the status code alone; a JSON body with an
`error` key is returned whole without raising; a JSON body without an
`error` key raises `ValueError` with status code and raw text. -/
theorem claim_C2_act_batch_failure (c : MjapiClient) (seq data : Json)
    (st : Nat) (tx : String) (hst : st ≠ 200) :
    ((act c seq data (.success ⟨st, none, tx⟩)).result
      = .error (.valueError ("status code " ++ toString st)))
    ∧ (∀ (fields : List (String × Json)) (m : Json), fields.lookup "error" = some m →
        (act c seq data (.success ⟨st, some (.obj fields), tx⟩)).result
          = .ok (.obj fields))
    ∧ (∀ (fields : List (String × Json)), fields.lookup "error" = none →
        (act c seq data (.success ⟨st, some (.obj fields), tx⟩)).result
          = .error (.valueError ("status code " ++ toString st ++ "; " ++ tx)))
    ∧ (∀ (as : List Json) (gf : List (String × Json)) (s : Json),
        gf.lookup "seq" = some s →
        ((batch c (as ++ [Json.obj gf]) (.success ⟨st, none, tx⟩)).result
          = .error (.valueError ("status code " ++ toString st)))
        ∧ (∀ (fields : List (String × Json)) (m : Json), fields.lookup "error" = some m →
            (batch c (as ++ [Json.obj gf])
              (.success ⟨st, some (.obj fields), tx⟩)).result = .ok (.obj fields))
        ∧ (∀ (fields : List (String × Json)), fields.lookup "error" = none →
            (batch c (as ++ [Json.obj gf])
              (.success ⟨st, some (.obj fields), tx⟩)).result
              = .error (.valueError ("status code " ++ toString st ++ "; " ++ tx)))) := by
  refine ⟨?_, ?_, ?_, ?_⟩
  · simp [act, post_act, hst]
  · intro fields m h
    simp [act, post_act, pyIn, hst, h]
  · intro fields h
    simp [act, post_act, pyIn, hst, h]
  · intro as gf s hseq
    refine ⟨?_, ?_, ?_⟩
    · rw [batch_eq_post_act c as gf s _ hseq]; simp [post_act, hst]
    · intro fields m h
      rw [batch_eq_post_act c as gf s _ hseq]
      simp [post_act, pyIn, hst, h]
    · intro fields h
      rw [batch_eq_post_act c as gf s _ hseq]
      simp [post_act, pyIn, hst, h]

/-- Witness for C2 at concrete inputs: a 400 response
`{"error": "rate limited"}` is returned whole by `act` without raising. -/
theorem claim_C2_witness :
    ((400 : Nat) ≠ 200)
    ∧ (([("error", Json.str "rate limited")] : List (String × Json)).lookup "error"
        = some (Json.str "rate limited"))
    ∧ (act sampleClient (Json.num 5) Json.null
        (.success ⟨400, some (.obj [("error", .str "rate limited")]), "t"⟩)).result
        = .ok (.obj [("error", .str "rate limited")]) :=
  ⟨by decide, rfl,
    (claim_C2_act_batch_failure sampleClient (Json.num 5) Json.null 400 "t"
      (by decide)).2.1 [("error", Json.str "rate limited")] (Json.str "rate limited") rfl⟩

/-- Counterexample to C4 as stated: `stop_bot` does raise on an HTTP 500
response with a structured error body, because the literal `None` in
`self.post_req(path, None)` binds to the `json` parameter and
`raise_error` keeps its default `True`. -/
theorem claim_C4_counterexample :
    (stop_bot sampleClient
      (.success ⟨500, some (.obj [("error", .str "bot not running")]), ""⟩)).result
      = .error (.runtimeError "Error in response 500: bot not running") := rfl

/-- C4 (amended): `stop_bot` posts with raise-on-error semantics: every
response with a failure status (≥ 400) and a JSON body carrying an `error`
key makes it raise `RuntimeError`; on a success status it returns the body
(or `None` when the body is empty). -/
theorem claim_C4_amended (c : MjapiClient) (st : Nat)
    (fields : List (String × Json)) (m : Json) (tx : String)
    (hst : 400 ≤ st) (he : fields.lookup "error" = some m) :
    ((stop_bot c (.success ⟨st, some (.obj fields), tx⟩)).result
      = .error (.runtimeError ("Error in response " ++ toString st ++ ": " ++ pyStr m)))
    ∧ (∀ (st2 : Nat) (bd : Option Json) (tx2 : String), st2 < 400 →
        (stop_bot c (.success ⟨st2, bd, tx2⟩)).result = .ok (bd.getD .null)) := by
  constructor
  · have hlt : ¬ st < 400 := by omega
    simp [stop_bot, post_req, process_res, HttpResponse.json, pyIn, pyGetItem,
      truthy, PyError.isRequestException, hlt, he]
  · intro st2 bd tx2 h2
    cases bd <;>
      simp [stop_bot, post_req, process_res, h2]

/-- Witness for the amended C4 at concrete inputs. -/
theorem claim_C4_amended_witness :
    ((400 : Nat) ≤ 500)
    ∧ (([("error", Json.str "x")] : List (String × Json)).lookup "error"
        = some (Json.str "x"))
    ∧ (stop_bot sampleClient
        (.success ⟨500, some (.obj [("error", .str "x")]), ""⟩)).result
        = .error (.runtimeError ("Error in response " ++ toString (500 : Nat)
            ++ ": " ++ pyStr (Json.str "x"))) :=
  ⟨by decide, rfl,
    (claim_C4_amended sampleClient 500 [("error", Json.str "x")] (Json.str "x") ""
      (by decide) rfl).1⟩

/-- Counterexample to C5 as stated: `get_limit` on an HTTP 400 response
whose body carries an `error` key returns the error payload instead of
raising — it passes the falsy `None` as `raise_error`. -/
theorem claim_C5_counterexample :
    (get_limit sampleClient
      (.success ⟨400, some (.obj [("error", .str "rate limited")]), ""⟩)).result
      = .ok (.obj [("error", .str "rate limited")]) := rfl

/-- C5 (amended): only `get_user_info` and `list_models` default to
raise-on-error — on every response with status ≥ 400 whose JSON body
carries an `error` key they raise `RuntimeError` — while `get_usage` and
`get_limit` pass the falsy `None` as `raise_error`, so `get_limit` returns
the error payload and `get_usage` looks up `used` in it, raising
`KeyError` when absent. -/
theorem claim_C5_amended (c : MjapiClient) (st : Nat)
    (fields : List (String × Json)) (m : Json) (tx : String)
    (hst : 400 ≤ st) (he : fields.lookup "error" = some m) :
    ((get_user_info c (.success ⟨st, some (.obj fields), tx⟩)).result
      = .error (.runtimeError ("Error in response " ++ toString st ++ ": " ++ pyStr m)))
    ∧ ((list_models c (.success ⟨st, some (.obj fields), tx⟩)).result
      = .error (.runtimeError ("Error in response " ++ toString st ++ ": " ++ pyStr m)))
    ∧ ((get_limit c (.success ⟨st, some (.obj fields), tx⟩)).result = .ok (.obj fields))
    ∧ (fields.lookup "used" = none →
        (get_usage c (.success ⟨st, some (.obj fields), tx⟩)).result
          = .error (.keyError "used")) := by
  have hlt : ¬ st < 400 := by omega
  refine ⟨?_, ?_, ?_, ?_⟩
  · simp [get_user_info, get_req, process_res, HttpResponse.json, pyIn, pyGetItem,
      truthy, PyError.isRequestException, hlt, he]
  · simp [list_models, get_req, process_res, HttpResponse.json, pyIn, pyGetItem,
      truthy, PyError.isRequestException, hlt, he]
  · simp [get_limit, get_req, process_res, HttpResponse.json, pyIn, pyGetItem,
      truthy, PyError.isRequestException, hlt, he]
  · intro hu
    simp [get_usage, get_req, process_res, HttpResponse.json, pyIn, pyGetItem,
      truthy, PyError.isRequestException, hlt, he, hu]

/-- Witness for the amended C5 at concrete inputs. -/
theorem claim_C5_amended_witness :
    ((400 : Nat) ≤ 400)
    ∧ (([("error", Json.str "rate limited")] : List (String × Json)).lookup "error"
        = some (Json.str "rate limited"))
    ∧ (get_user_info sampleClient
        (.success ⟨400, some (.obj [("error", .str "rate limited")]), ""⟩)).result
        = .error (.runtimeError ("Error in response " ++ toString (400 : Nat)
            ++ ": " ++ pyStr (Json.str "rate limited"))) :=
  ⟨by decide, rfl,
    (claim_C5_amended sampleClient 400 [("error", Json.str "rate limited")]
      (Json.str "rate limited") "" (by decide) rfl).1⟩

/-- Helper: Python dict assignment makes the assigned key map to the
assigned value. -/
theorem dictSet_lookup (d : List (String × String)) (k v : String) :
    (dictSet d k v).lookup k = some v := by
  induction d with
  | nil => simp [dictSet, List.lookup]
  | cons p rest ih =>
    by_cases h : p.1 = k
    · simp [dictSet, h, List.lookup]
    · simp only [dictSet, if_neg h]
      have hk : (k == p.1) = false := by
        exact beq_eq_false_iff_ne.mpr (fun hkp => h hkp.symm)
      cases p with
      | mk pk pv =>
        simp only [List.lookup]
        simp only at hk
        rw [hk]
        exact ih

/-- Helper: `post_req` never mutates the client. -/
theorem post_req_client (c : MjapiClient) (path : String) (json : Json)
    (re : Option Bool) (net : TransportResult) :
    (post_req c path json re net).client = c := rfl

/-- Helper: `get_req` never mutates the client. -/
theorem get_req_client (c : MjapiClient) (path : String)
    (re : Option Bool) (net : TransportResult) :
    (get_req c path re net).client = c := rfl

/-- Helper: `post_act` never mutates the client. -/
theorem post_act_client (c : MjapiClient) (path : String) (seq actions : Json)
    (net : TransportResult) :
    (post_act c path seq actions net).client = c := rfl

/-- Helper: every request `post_req` sends carries the client's headers. -/
theorem post_req_sent_headers (c : MjapiClient) (path : String) (json : Json)
    (re : Option Bool) (net : TransportResult) :
    ∀ q ∈ (post_req c path json re net).sent, q.headers = c.headers := by
  intro q hq
  simp only [post_req, List.mem_singleton] at hq
  rw [hq]

/-- Helper: every request `get_req` sends carries the client's headers. -/
theorem get_req_sent_headers (c : MjapiClient) (path : String)
    (re : Option Bool) (net : TransportResult) :
    ∀ q ∈ (get_req c path re net).sent, q.headers = c.headers := by
  intro q hq
  simp only [get_req, List.mem_singleton] at hq
  rw [hq]

/-- Helper: every request `post_act` sends carries the client's headers. -/
theorem post_act_sent_headers (c : MjapiClient) (path : String) (seq actions : Json)
    (net : TransportResult) :
    ∀ q ∈ (post_act c path seq actions net).sent, q.headers = c.headers := by
  intro q hq
  simp only [post_act, List.mem_singleton] at hq
  rw [hq]

/-- Counterexample to C6 as stated: an HTTP 500 response whose JSON body
does carry `{"id": "tok123"}` makes `login` raise the unstructured-failure
`RuntimeError` and leave the client (hence its token) untouched, so the
token does not become `tok123`. -/
theorem claim_C6_counterexample :
    ((login sampleClient "alice" "s3cr3t"
        (.success ⟨500, some (.obj [("id", .str "tok123")]), "x"⟩)).client
      = sampleClient)
    ∧ ((login sampleClient "alice" "s3cr3t"
        (.success ⟨500, some (.obj [("id", .str "tok123")]), "x"⟩)).result
      = .error (.runtimeError "Unexpected API response 500: x"))
    ∧ sampleClient.token ≠ Json.str "tok123" := by
  refine ⟨rfl, rfl, ?_⟩
  intro h
  simp [sampleClient, MjapiClient.init] at h

/-- C6 (amended): for every `login` call answered with an HTTP-success
(status < 400) response whose JSON body carries an `id` field, the token
becomes that field's value and the `Authorization: Bearer <token>` header
is installed; subsequent requests issued by the three network primitives
all carry the client's headers, and none of those primitives changes the
client state. -/
theorem claim_C6_amended (c : MjapiClient) (name secret : String) (st : Nat)
    (fields : List (String × Json)) (tok : Json) (tx : String)
    (hst : st < 400) (hid : fields.lookup "id" = some tok) :
    ((login c name secret (.success ⟨st, some (.obj fields), tx⟩)).result = .ok .null)
    ∧ ((login c name secret (.success ⟨st, some (.obj fields), tx⟩)).client.token = tok)
    ∧ ((login c name secret
          (.success ⟨st, some (.obj fields), tx⟩)).client.headers.lookup "Authorization"
        = some ("Bearer " ++ pyStr tok))
    ∧ (∀ (c2 : MjapiClient),
        c2 = (login c name secret (.success ⟨st, some (.obj fields), tx⟩)).client →
        (∀ (path : String) (json : Json) (re : Option Bool) (net : TransportResult),
          (post_req c2 path json re net).client = c2
          ∧ ∀ q ∈ (post_req c2 path json re net).sent, q.headers = c2.headers)
        ∧ (∀ (path : String) (re : Option Bool) (net : TransportResult),
          (get_req c2 path re net).client = c2
          ∧ ∀ q ∈ (get_req c2 path re net).sent, q.headers = c2.headers)
        ∧ (∀ (path : String) (seq actions : Json) (net : TransportResult),
          (post_act c2 path seq actions net).client = c2
          ∧ ∀ q ∈ (post_act c2 path seq actions net).sent, q.headers = c2.headers)) := by
  refine ⟨?_, ?_, ?_, ?_⟩
  · simp [login, post_req, process_res, pyIn, pyGetItem, hid, truthy,
      PyError.isRequestException, hst, set_bearer_token]
  · simp [login, post_req, process_res, pyIn, pyGetItem, hid, truthy,
      PyError.isRequestException, hst, set_bearer_token]
  · simp only [login, post_req, process_res, pyIn, pyGetItem, hid, truthy,
      PyError.isRequestException, hst, set_bearer_token, if_pos hst]
    simp [hid, dictSet_lookup]
  · intro c2 _
    exact ⟨fun path json re net =>
        ⟨post_req_client c2 path json re net, post_req_sent_headers c2 path json re net⟩,
      fun path re net =>
        ⟨get_req_client c2 path re net, get_req_sent_headers c2 path re net⟩,
      fun path seq actions net =>
        ⟨post_act_client c2 path seq actions net, post_act_sent_headers c2 path seq actions net⟩⟩

/-- Witness for the amended C6 at concrete inputs. -/
theorem claim_C6_amended_witness :
    ((200 : Nat) < 400)
    ∧ (([("id", Json.str "tok123")] : List (String × Json)).lookup "id"
        = some (Json.str "tok123"))
    ∧ (login sampleClient "alice" "s3cr3t"
        (.success ⟨200, some (.obj [("id", .str "tok123")]), ""⟩)).client.headers.lookup
          "Authorization" = some ("Bearer " ++ pyStr (Json.str "tok123")) :=
  ⟨by decide, rfl,
    (claim_C6_amended sampleClient "alice" "s3cr3t" 200 [("id", Json.str "tok123")]
      (Json.str "tok123") "" (by decide) rfl).2.2.1⟩

/-- Counterexample to C7 as stated: a login answered with HTTP 400 and
body `{"error": "bad secret"}` (a response lacking `id`) raises the
response-processor `RuntimeError` carrying only status and message, not
the `Error login` one carrying the full payload. -/
theorem claim_C7_counterexample :
    ((login sampleClient "alice" "s3cr3t"
        (.success ⟨400, some (.obj [("error", .str "bad secret")]), "t"⟩)).result
      = .error (.runtimeError "Error in response 400: bad secret"))
    ∧ ((login sampleClient "alice" "s3cr3t"
        (.success ⟨400, some (.obj [("error", .str "bad secret")]), "t"⟩)).result
      ≠ .error (.runtimeError ("Error login: "
          ++ pyStr (Json.obj [("error", Json.str "bad secret")])))) := by
  refine ⟨rfl, ?_⟩
  have h1 : (login sampleClient "alice" "s3cr3t"
      (.success ⟨400, some (.obj [("error", .str "bad secret")]), "t"⟩)).result
      = .error (.runtimeError "Error in response 400: bad secret") := rfl
  rw [h1]
  intro h
  simp only [Except.error.injEq, PyError.runtimeError.injEq] at h
  exact absurd h (by decide)

/-- C7 (amended): for every `login` or `trial` call answered with an
HTTP-success (status < 400) response whose non-empty JSON body lacks the
`id` field, the call raises `RuntimeError("Error login: <payload>")`
carrying the full payload and leaves the client — token and headers —
unchanged; HTTP-failure responses instead surface the response
processor's errors, which also leave the client unchanged. -/
theorem claim_C7_amended (c : MjapiClient) (name secret : String) (st : Nat)
    (fields : List (String × Json)) (tx : String)
    (hst : st < 400) (hid : fields.lookup "id" = none) :
    ((login c name secret (.success ⟨st, some (.obj fields), tx⟩)).result
      = .error (.runtimeError ("Error login: " ++ pyStr (.obj fields))))
    ∧ ((login c name secret (.success ⟨st, some (.obj fields), tx⟩)).client = c)
    ∧ ((trial c (.success ⟨st, some (.obj fields), tx⟩)).result
      = .error (.runtimeError ("Error login: " ++ pyStr (.obj fields))))
    ∧ ((trial c (.success ⟨st, some (.obj fields), tx⟩)).client = c)
    ∧ (∀ (st2 : Nat) (bd : Option Json) (tx2 : String), 400 ≤ st2 →
        ((login c name secret (.success ⟨st2, bd, tx2⟩)).client = c)
        ∧ ((trial c (.success ⟨st2, bd, tx2⟩)).client = c)) := by
  refine ⟨?_, ?_, ?_, ?_, ?_⟩
  · simp [login, post_req, process_res, pyIn, pyGetItem, hid, truthy,
      PyError.isRequestException, hst]
  · simp [login, post_req, process_res, pyIn, pyGetItem, hid, truthy,
      PyError.isRequestException, hst]
  · simp [trial, post_req, process_res, pyIn, pyGetItem, hid, truthy,
      PyError.isRequestException, hst]
  · simp [trial, post_req, process_res, pyIn, pyGetItem, hid, truthy,
      PyError.isRequestException, hst]
  · intro st2 bd tx2 h2
    have hlt : ¬ st2 < 400 := by omega
    cases bd with
    | none =>
      constructor <;>
        simp [login, trial, post_req, process_res, HttpResponse.json, truthy,
          PyError.isRequestException, hlt]
    | some j =>
      rcases hin : pyIn "error" j with e | b
      · constructor <;>
          simp [login, trial, post_req, process_res, HttpResponse.json, truthy,
            PyError.isRequestException, hlt, hin]
      · cases b
        · constructor <;>
            simp [login, trial, post_req, process_res, HttpResponse.json, truthy,
              PyError.isRequestException, hlt, hin]
        · rcases hget : pyGetItem j "error" with e | m
          · constructor <;>
              simp [login, trial, post_req, process_res, HttpResponse.json, truthy,
                PyError.isRequestException, hlt, hin, hget]
          · constructor <;>
              simp [login, trial, post_req, process_res, HttpResponse.json, truthy,
                PyError.isRequestException, hlt, hin, hget]

/-- Witness for the amended C7 at concrete inputs. -/
theorem claim_C7_amended_witness :
    ((200 : Nat) < 400)
    ∧ (([("error", Json.str "bad secret")] : List (String × Json)).lookup "id" = none)
    ∧ (login sampleClient "alice" "s3cr3t"
        (.success ⟨200, some (.obj [("error", .str "bad secret")]), ""⟩)).result
        = .error (.runtimeError ("Error login: "
            ++ pyStr (Json.obj [("error", Json.str "bad secret")]))) :=
  ⟨by decide, rfl,
    (claim_C7_amended sampleClient "alice" "s3cr3t" 200
      [("error", Json.str "bad secret")] "" (by decide) rfl).1⟩

/-- C8: `batch` on the empty list returns `None` with no network request
and no client-state change; on a non-empty list it routes to the shared
action POST on `/mjai/batch`, sending the whole list as the request body,
with the last envelope's `seq` as the correlation key passed to that
routine. -/
theorem claim_C8_batch_empty_nonempty (c : MjapiClient) (net : TransportResult) :
    (batch c [] net = { result := .ok .null, client := c, sent := [] })
    ∧ (∀ (as : List Json) (gf : List (String × Json)) (s : Json),
        gf.lookup "seq" = some s →
        (batch c (as ++ [Json.obj gf]) net
          = post_act c "/mjai/batch" s (Json.arr (as ++ [Json.obj gf])) net)
        ∧ ((batch c (as ++ [Json.obj gf]) net).sent
          = [{ method := .POST, url := c.base_url ++ "/mjai/batch",
               jsonBody := Json.arr (as ++ [Json.obj gf]), headers := c.headers }])) := by
  constructor
  · rfl
  · intro as gf s hseq
    refine ⟨batch_eq_post_act c as gf s net hseq, ?_⟩
    rw [batch_eq_post_act c as gf s net hseq]
    rfl

/-- Witness for C8 at concrete inputs. -/
theorem claim_C8_witness :
    (([("seq", Json.num 7)] : List (String × Json)).lookup "seq" = some (Json.num 7))
    ∧ (batch sampleClient [Json.obj [("seq", Json.num 7)]] .exn
        = post_act sampleClient "/mjai/batch" (Json.num 7)
            (Json.arr [Json.obj [("seq", Json.num 7)]]) .exn) :=
  ⟨rfl,
    ((claim_C8_batch_empty_nonempty sampleClient .exn).2
      [] [("seq", Json.num 7)] (Json.num 7) rfl).1⟩

/-- C9: a `login` or `trial` call answered with an HTTP-success response
and an empty body evaluates `id in None`, so it raises `TypeError` rather
than the login `RuntimeError` or a normal return. -/
theorem claim_C9_login_trial_empty_success (c : MjapiClient) (name secret : String)
    (st : Nat) (tx : String) (hst : st < 400) :
    ((login c name secret (.success ⟨st, none, tx⟩)).result
      = .error (.typeError "argument of type \x27NoneType\x27 is not iterable"))
    ∧ ((trial c (.success ⟨st, none, tx⟩)).result
      = .error (.typeError "argument of type \x27NoneType\x27 is not iterable")) := by
  constructor <;>
    simp [login, trial, post_req, process_res, pyIn, truthy,
      PyError.isRequestException, hst]

/-- Witness for C9 at concrete inputs. -/
theorem claim_C9_witness :
    ((200 : Nat) < 400)
    ∧ (login sampleClient "alice" "s3cr3t" (.success ⟨200, none, ""⟩)).result
        = .error (.typeError "argument of type \x27NoneType\x27 is not iterable") :=
  ⟨by decide,
    (claim_C9_login_trial_empty_success sampleClient "alice" "s3cr3t" 200 ""
      (by decide)).1⟩

/-- C10: a non-empty `batch` whose last envelope lacks the `seq` key
raises `KeyError` before any network request is issued, leaving the
client state unchanged. -/
theorem claim_C10_batch_missing_seq (c : MjapiClient) (as : List Json)
    (gf : List (String × Json)) (net : TransportResult)
    (hseq : gf.lookup "seq" = none) :
    batch c (as ++ [Json.obj gf]) net
      = { result := .error (.keyError "seq"), client := c, sent := [] } := by
  unfold batch
  rw [if_neg (length_append_single_ne_zero as (Json.obj gf))]
  rw [getLastD_append_single]
  simp [pyGetItem, hseq]

/-- Witness for C10 at concrete inputs. -/
theorem claim_C10_witness :
    (([("data", Json.null)] : List (String × Json)).lookup "seq" = none)
    ∧ (batch sampleClient [Json.obj [("data", Json.null)]] .exn
        = { result := .error (.keyError "seq"), client := sampleClient, sent := [] }) :=
  ⟨rfl, claim_C10_batch_missing_seq sampleClient [] [("data", Json.null)] .exn rfl⟩

end Mjapi
